import Mathlib

/-!
Verification of the Sidekick contextual action engine.

The definitions below are a shallow embedding of the JavaScript sources:
`src/background.js` (action orchestrator: suggestion, execution, usage
statistics), `src/contentScript.js` (UI state machine for text selection)
and the earlier background/content-script iterations shipped in the
repository (`sortActionsByUsage`, the timeout-bearing `showActionPalette`).
Pure JS functions become Lean functions; the asynchronous message/timer
machinery becomes explicit event traces folded over a step function; the
remote completion service becomes an environment-chosen reply value.
-/

namespace Sidekick

/-! ## Characters and strings

Models of the JavaScript string primitives used by the heuristics:
`\s` (whitespace class on the ASCII range), `\w` word characters,
`String.prototype.trim`, `split(/\s+/)` and substring search.
-/

/-- Model of the JS `\s` class on the ASCII range
(space, tab, newline, carriage return, vertical tab, form feed). -/
def isWsChar (c : Char) : Bool :=
  c = ' ' || c = '\t' || c = '\n' || c = '\r' || c = '\x0b' || c = '\x0c'

/-- Model of the JS `\w` class: `[A-Za-z0-9_]`. -/
def isWordChar (c : Char) : Bool :=
  c.isAlphanum || c = '_'

/-- `String.prototype.trim` on a character list: drop whitespace at both ends. -/
def jsTrimList (l : List Char) : List Char :=
  ((l.dropWhile isWsChar).reverse.dropWhile isWsChar).reverse

/-- Model of `String.prototype.trim`. -/
def jsTrim (s : String) : String :=
  ⟨jsTrimList s.data⟩

/-- Model of `String.prototype.toLowerCase` (character-wise lowering). -/
def jsToLower (s : String) : String :=
  ⟨s.data.map Char.toLower⟩

/-- Maximal runs of non-whitespace characters, accumulator-style.
`acc` holds the (reversed) current run.  This is `split(/\s+/)` with the
empty boundary pieces already removed; the callers below only ever count
pieces that a `^...$`-anchored test accepts, and such tests reject the
empty string, so dropping the empty pieces is observationally equal. -/
def splitWsAux : List Char → List Char → List (List Char)
  | [], acc => if acc.isEmpty then [] else [acc.reverse]
  | c :: rest, acc =>
    if isWsChar c then
      (if acc.isEmpty then [] else [acc.reverse]) ++ splitWsAux rest []
    else
      splitWsAux rest (c :: acc)

/-- The whitespace-split words of a string (nonempty pieces only). -/
def wordRuns (s : String) : List (List Char) :=
  splitWsAux s.data []

/-- Number of whitespace-split words, i.e. the JS
`text.split(/\s+/).filter(w => w.length > 0).length`. -/
def wordCount (s : String) : Nat :=
  (wordRuns s).length

/-- `/^\d+$/.test(w)`: the word is nonempty and all digits. -/
def isNumericToken (w : List Char) : Bool :=
  !w.isEmpty && w.all Char.isDigit

/-- Number of standalone numeric tokens among the whitespace-split words:
`text.split(/\s+/).filter(w => /^\d+$/.test(w)).length`. -/
def numericTokenCount (s : String) : Nat :=
  ((wordRuns s).filter isNumericToken).length

/-- Substring search on character lists (`String.prototype.includes`). -/
def listContainsSub (sub l : List Char) : Bool :=
  l.tails.any (fun t => sub.isPrefixOf t)

/-- Model of `s.includes(sub)`. -/
def strContains (s sub : String) : Bool :=
  listContainsSub sub.data s.data

/-- Auxiliary scanner for `\bWORD\b`: at each position, the word matches
if the previous character (if any) is a non-word character, the word is a
prefix here, and the following character (if any) is a non-word character. -/
def wordBoundaryScan (w : List Char) : Option Char → List Char → Bool
  | _, [] => false
  | prev, c :: rest =>
    ((match prev with
      | none => true
      | some p => !isWordChar p) &&
     w.isPrefixOf (c :: rest) &&
     (match (c :: rest).drop w.length with
      | [] => true
      | d :: _ => !isWordChar d))
    || wordBoundaryScan w (some c) rest

/-- `new RegExp("\\b" + w + "\\b").test(s)` for a word `w` made of word
characters. -/
def containsWordToken (s : String) (w : String) : Bool :=
  wordBoundaryScan w.data none s.data

/-! ## Data model -/

/-- An action offered to the user (`{id, label, icon, description}` in JS). -/
structure Action where
  id : String
  label : String
  icon : String
  description : String
deriving DecidableEq

/-- Page context captured at gesture time (`{url, title, domain}`). -/
structure Context where
  url : String
  title : String
  domain : String
deriving DecidableEq

/-- One usage-statistics record: `{clicks, lastUsed}`.  Timestamps are
abstracted to natural numbers; `lastUsed = none` models JS `null`. -/
structure Stat where
  clicks : Nat
  lastUsed : Option Nat
deriving DecidableEq

/-- The persisted `actionUsageStats` object: an insertion-ordered map from
action id to `Stat`, modelled as an association list. -/
abbrev UsageStats : Type := List (String × Stat)

/-- `actionUsageStats[id]` (an absent key yields `none`, JS `undefined`). -/
def lookupStat : UsageStats → String → Option Stat
  | [], _ => none
  | (k, v) :: rest, id => if k = id then some v else lookupStat rest id

/-- `(actionUsageStats[a.id] || { clicks: 0 }).clicks`: missing entries
count as 0 clicks. -/
def clicksOf (stats : UsageStats) (id : String) : Nat :=
  ((lookupStat stats id).map Stat.clicks).getD 0

/-- Assignment `actionUsageStats[id] = v`: replace in place when the key
exists, otherwise append at the end (JS object keys keep insertion
order). -/
def setStat : UsageStats → String → Stat → UsageStats
  | [], id, v => [(id, v)]
  | (k, w) :: rest, id, v =>
    if k = id then (id, v) :: rest else (k, w) :: setStat rest id v

/-! ## ActionRanker: `sortActionsByUsage`

The older background iteration ranks a batch with
`actions.sort((a, b) => bStats.clicks - aStats.clicks)` where missing
usage entries default to `{clicks: 0}`.  ECMAScript `Array.prototype.sort`
is a stable sort, so the embedding is the stable descending-by-clicks
sort: insertion sort that places each element before the first
already-placed element with no more clicks than it. -/

/-- Stable descending insertion: skip over elements with strictly more
clicks, then insert.  Elements inserted later (earlier in the input) end
up before equal-click elements inserted before them. -/
def insertByClicks (stats : UsageStats) (a : Action) : List Action → List Action
  | [] => [a]
  | b :: bs =>
    if clicksOf stats a.id < clicksOf stats b.id then
      b :: insertByClicks stats a bs
    else
      a :: b :: bs

/-- `sortActionsByUsage(actions)`: stable sort, most-used first. -/
def sortActionsByUsage (stats : UsageStats) (actions : List Action) : List Action :=
  actions.foldr (insertByClicks stats) []

/-! ### Ranker lemmas -/

theorem insertByClicks_perm (stats : UsageStats) (a : Action) (l : List Action) :
    List.Perm (insertByClicks stats a l) (a :: l) := by
  induction l with
  | nil => simp [insertByClicks]
  | cons b bs ih =>
    by_cases h : clicksOf stats a.id < clicksOf stats b.id
    · simp only [insertByClicks, if_pos h]
      exact (ih.cons b).trans (List.Perm.swap a b bs)
    · simp [insertByClicks, if_neg h]

theorem sortActionsByUsage_perm (stats : UsageStats) (l : List Action) :
    List.Perm (sortActionsByUsage stats l) l := by
  induction l with
  | nil => simp [sortActionsByUsage]
  | cons a as ih =>
    simp only [sortActionsByUsage, List.foldr_cons]
    exact (insertByClicks_perm stats a _).trans (ih.cons a)

theorem mem_insertByClicks (stats : UsageStats) (a x : Action) (l : List Action)
    (hx : x ∈ insertByClicks stats a l) : x = a ∨ x ∈ l :=
  List.mem_cons.mp ((insertByClicks_perm stats a l).mem_iff.mp hx)

/-- Descending order by clicks (ties allowed). -/
def ClicksDesc (stats : UsageStats) (x y : Action) : Prop :=
  clicksOf stats y.id ≤ clicksOf stats x.id

theorem insertByClicks_pairwise (stats : UsageStats) (a : Action) (l : List Action)
    (hl : l.Pairwise (ClicksDesc stats)) :
    (insertByClicks stats a l).Pairwise (ClicksDesc stats) := by
  induction l with
  | nil => simp [insertByClicks, List.Pairwise]
  | cons b bs ih =>
    rcases List.pairwise_cons.mp hl with ⟨hb, hbs⟩
    by_cases h : clicksOf stats a.id < clicksOf stats b.id
    · simp only [insertByClicks, if_pos h]
      refine List.pairwise_cons.mpr ⟨?_, ih hbs⟩
      intro y hy
      rcases mem_insertByClicks stats a y bs hy with rfl | hy'
      · exact le_of_lt h
      · exact hb y hy'
    · simp only [insertByClicks, if_neg h]
      refine List.pairwise_cons.mpr ⟨?_, hl⟩
      intro y hy
      rcases List.mem_cons.mp hy with rfl | hy'
      · exact le_of_not_lt h
      · exact le_trans (hb y hy') (le_of_not_lt h)

theorem sortActionsByUsage_pairwise (stats : UsageStats) (l : List Action) :
    (sortActionsByUsage stats l).Pairwise (ClicksDesc stats) := by
  induction l with
  | nil => simp [sortActionsByUsage, List.Pairwise]
  | cons a as ih =>
    simp only [sortActionsByUsage, List.foldr_cons]
    exact insertByClicks_pairwise stats a _ ih

/-- Stability kernel: filtering at any fixed click count commutes with the
insertion, because the insertion only skips elements with strictly more
clicks than the inserted one. -/
theorem filter_insertByClicks (stats : UsageStats) (a : Action) (l : List Action) (c : Nat) :
    (insertByClicks stats a l).filter (fun x => clicksOf stats x.id == c) =
      (a :: l).filter (fun x => clicksOf stats x.id == c) := by
  induction l with
  | nil => simp [insertByClicks]
  | cons b bs ih =>
    by_cases h : clicksOf stats a.id < clicksOf stats b.id
    · simp only [insertByClicks, if_pos h]
      by_cases hac : clicksOf stats a.id = c
      · have hbc : ¬ clicksOf stats b.id = c := by omega
        simp only [List.filter_cons]
        simp only [hbc, beq_iff_eq, if_neg hbc, ih, List.filter_cons, if_pos hac,
          beq_self_eq_true, hac]
        simp [hbc]
      · simp only [List.filter_cons, beq_iff_eq]
        rw [ih]
        simp only [List.filter_cons, beq_iff_eq, if_neg hac]
    · simp [insertByClicks, if_neg h]

theorem sortActionsByUsage_stable (stats : UsageStats) (l : List Action) (c : Nat) :
    (sortActionsByUsage stats l).filter (fun x => clicksOf stats x.id == c) =
      l.filter (fun x => clicksOf stats x.id == c) := by
  induction l with
  | nil => rfl
  | cons a as ih =>
    simp only [sortActionsByUsage, List.foldr_cons] at *
    rw [filter_insertByClicks]
    simp only [List.filter_cons]
    by_cases hac : clicksOf stats a.id = c
    · simp [hac, ih]
    · simp [hac, ih]

/-! ## Heuristic content detection (`getSmartFallbackActions`, background.js)

The detection predicates mirror, regex by regex, the tests at the top of
`getSmartFallbackActions`:
  - `codePatterns = /\b(function|...|void)\b|[{}\[\]();]|=>|==|&&|\|\|/`
  - `emailPatterns = /\b(dear|...|thanks)\b|@[a-zA-Z0-9.-]+\.[a-zA-Z]{2,}/`
  - `hasNumbers = /\d+/.test(text) && (numeric tokens) > 3`
  - `isList = /^[\d\-\*•]\s|^\d+\.|^[a-z]\)|^[A-Z]\)/.test(text.trim()) || lines > 3`
  - `isLongText = wordCount > 50`
-/

/-- The keyword alternatives of `codePatterns`. -/
def codeKeywords : List String :=
  ["function", "class", "const", "let", "var", "if", "for", "while",
   "import", "export", "return", "def", "public", "private", "void"]

/-- The structural character class `[{}\[\]();]` of `codePatterns`. -/
def codeStructuralChars : List Char :=
  ['\x7b', '\x7d', '[', ']', '(', ')', ';']

/-- `codePatterns.test(selectedText)`. -/
def isCode (s : String) : Bool :=
  codeKeywords.any (containsWordToken s) ||
  s.data.any (fun c => codeStructuralChars.contains c) ||
  strContains s "=>" || strContains s "==" || strContains s "&&" || strContains s "||"

/-- The salutation/signoff alternatives of `emailPatterns`. -/
def emailSalutations : List String :=
  ["dear", "hi", "hello", "regards", "sincerely", "best", "thanks"]

/-- The character class `[a-zA-Z0-9.-]` of the email-token pattern. -/
def inEmailClass (c : Char) : Bool :=
  c.isAlphanum || c = '.' || c = '-'

/-- `[a-zA-Z]{2,}` as a prefix test: at least two leading ASCII letters. -/
def twoAlphaHead : List Char → Bool
  | a :: b :: _ => a.isAlpha && b.isAlpha
  | _ => false

/-- After an `@`, the pattern `[a-zA-Z0-9.-]+\.[a-zA-Z]{2,}` matches for
some backtracking split of the `+` repetition. -/
def emailTokenAfterAt (rest : List Char) : Bool :=
  (List.range (rest.length + 1)).any (fun i =>
    decide (1 ≤ i) && (rest.take i).all inEmailClass &&
    (match rest.drop i with
     | '.' :: tl => twoAlphaHead tl
     | _ => false))

/-- `/@[a-zA-Z0-9.-]+\.[a-zA-Z]{2,}/.test(s)`. -/
def hasEmailToken (s : String) : Bool :=
  s.data.tails.any (fun t =>
    match t with
    | '@' :: rest => emailTokenAfterAt rest
    | _ => false)

/-- `emailPatterns.test(text) || url.includes('mail') || url.includes('gmail')`,
with `text` and `url` already lowercased by the caller. -/
def isEmail (textLower urlLower : String) : Bool :=
  emailSalutations.any (containsWordToken textLower) ||
  hasEmailToken textLower ||
  strContains urlLower "mail" || strContains urlLower "gmail"

/-- `/\d+/.test(text) && text.split(/\s+/).filter(w => /^\d+$/.test(w)).length > 3`. -/
def hasNumbers (s : String) : Bool :=
  s.data.any Char.isDigit && numericTokenCount s > 3

/-- The bullet class `[\d\-\*•]` of the list-marker pattern. -/
def isBulletChar (c : Char) : Bool :=
  c.isDigit || c = '-' || c = '*' || c = '•'

/-- `\d*\.` continuation: digits then a literal dot. -/
def digitsThenDot : List Char → Bool
  | [] => false
  | c :: rest => if c = '.' then true else c.isDigit && digitsThenDot rest

/-- `/^[\d\-\*•]\s|^\d+\.|^[a-z]\)|^[A-Z]\)/` applied at the start of the
(already trimmed) text. -/
def listMarkerHead : List Char → Bool
  | [] => false
  | c1 :: rest =>
    (isBulletChar c1 &&
      (match rest with
       | c2 :: _ => isWsChar c2
       | [] => false)) ||
    (c1.isDigit && digitsThenDot rest) ||
    ((c1.isLower || c1.isUpper) &&
      (match rest with
       | c2 :: _ => c2 = ')'
       | [] => false))

/-- `isList` from `getSmartFallbackActions`:
marker at the start of the trimmed text, or more than 3 newline-separated
lines (`text.split('\n').length > 3`). -/
def isList (s : String) : Bool :=
  listMarkerHead (jsTrim s).data || s.data.count '\n' + 1 > 3

/-- `isLongText`: strictly more than 50 whitespace-split words. -/
def isLongText (s : String) : Bool :=
  wordCount s > 50

/-! ## Action quadruples (background.js literals) -/

/-- The code quadruple of `getSmartFallbackActions`. -/
def codeActions : List Action :=
  [⟨"explain_code", "Explain Code", "📖", "Explain what this code does in simple terms"⟩,
   ⟨"find_issues", "Find Issues", "🔍", "Identify bugs or potential problems"⟩,
   ⟨"add_comments", "Add Comments", "💬", "Add helpful inline comments"⟩,
   ⟨"refactor", "Refactor", "♻️", "Improve code structure and readability"⟩]

/-- The email quadruple of `getSmartFallbackActions`. -/
def emailActions : List Action :=
  [⟨"draft_reply", "Draft Reply", "📧", "Generate a professional reply"⟩,
   ⟨"summarize", "Summarize", "📝", "Get the key points quickly"⟩,
   ⟨"change_tone", "Change Tone", "🎭", "Make more formal or casual"⟩,
   ⟨"action_items", "Action Items", "✅", "Extract tasks and next steps"⟩]

/-- The numeric-data quadruple of `getSmartFallbackActions`. -/
def numericDataActions : List Action :=
  [⟨"analyze_data", "Analyze Data", "📊", "Find patterns and insights"⟩,
   ⟨"create_table", "Format Table", "📋", "Organize data into a clean table"⟩,
   ⟨"calculate", "Calculate", "🧮", "Perform calculations on the numbers"⟩,
   ⟨"visualize", "Visualize", "📈", "Suggest chart types for this data"⟩]

/-- The list quadruple of `getSmartFallbackActions`. -/
def listActions : List Action :=
  [⟨"organize", "Organize", "📂", "Group and categorize items"⟩,
   ⟨"prioritize", "Prioritize", "🎯", "Rank items by importance"⟩,
   ⟨"expand", "Expand Items", "🔍", "Add details to each item"⟩,
   ⟨"convert_tasks", "Make Tasks", "☑️", "Convert to actionable tasks"⟩]

/-- The long-text quadruple of `getSmartFallbackActions`. -/
def longTextActions : List Action :=
  [⟨"summarize", "Summarize", "📄", "Get the main points quickly"⟩,
   ⟨"key_points", "Key Points", "🎯", "Extract important information"⟩,
   ⟨"simplify", "Simplify", "✂️", "Make it easier to understand"⟩,
   ⟨"questions", "Questions", "❓", "Generate questions about this content"⟩]

/-- The default quadruple at the end of `getSmartFallbackActions`. -/
def generalTextActions : List Action :=
  [⟨"summarize", "Summarize", "📝", "Create a brief summary"⟩,
   ⟨"improve", "Improve", "✨", "Enhance clarity and impact"⟩,
   ⟨"translate", "Translate", "🌐", "Translate to another language"⟩,
   ⟨"explain", "Explain", "💡", "Explain in simple terms"⟩]

/-- `getSmartFallbackActions(selectedText, context)`: the heuristic
suggester of background.js, first match wins in source order
(code, email, numeric data, list, long text, default). -/
def getSmartFallbackActions (selectedText : String) (ctx : Context) : List Action :=
  let text := jsToLower selectedText
  let url := jsToLower ctx.url
  if isCode selectedText then codeActions
  else if isEmail text url then emailActions
  else if hasNumbers selectedText then numericDataActions
  else if isList selectedText then listActions
  else if isLongText selectedText then longTextActions
  else generalTextActions

/-- `getFallbackActions()`: the fixed basic quadruple of background.js,
used on the no-credential path and as the message listener's last resort. -/
def getFallbackActions : List Action :=
  [⟨"summarize", "Summarize", "📝", "Create a brief summary"⟩,
   ⟨"explain", "Explain", "💡", "Explain this content"⟩,
   ⟨"improve", "Improve", "✨", "Enhance this text"⟩,
   ⟨"key_points", "Key Points", "🎯", "Extract main points"⟩]

/-! ## Element-mode fallback (`getElementFallbackActions`, background.js) -/

/-- The `elementContext` argument as it can actually arrive over the
message channel: `null`/`undefined`, or an object whose `type` field may
itself be absent (`undefined`) or any string. -/
inductive ElementContext where
  | nullish
  | obj (type : Option String)
deriving DecidableEq

/-- `elementContext?.type || 'unknown'`: optional chaining yields
`undefined` on a nullish receiver or a missing field, and `||` replaces
every falsy value (including the empty string) by `'unknown'`. -/
def elementTypeOf : ElementContext → String
  | .nullish => "unknown"
  | .obj none => "unknown"
  | .obj (some t) => if t = "" then "unknown" else t

/-- The image quadruple of `getElementFallbackActions`. -/
def imageElementActions : List Action :=
  [⟨"describe_image", "Describe Image", "🖼️", "Get a detailed description of this image"⟩,
   ⟨"extract_text", "Extract Text", "📝", "Extract any text from this image"⟩,
   ⟨"find_similar", "Find Similar", "🔍", "Search for similar images"⟩,
   ⟨"analyze_content", "Analyze Content", "🔬", "Analyze the image content and context"⟩]

/-- The chart/canvas quadruple of `getElementFallbackActions`. -/
def chartElementActions : List Action :=
  [⟨"explain_chart", "Explain Chart", "📊", "Explain what this chart shows"⟩,
   ⟨"extract_data", "Extract Data", "📋", "Extract data points from this visualization"⟩,
   ⟨"analyze_trends", "Analyze Trends", "📈", "Identify trends and patterns"⟩,
   ⟨"summarize_insights", "Key Insights", "💡", "Get key insights from this data"⟩]

/-- The table quadruple of `getElementFallbackActions`. -/
def tableElementActions : List Action :=
  [⟨"summarize_table", "Summarize Data", "📊", "Get a summary of this table data"⟩,
   ⟨"extract_csv", "Export CSV", "📄", "Convert to CSV format"⟩,
   ⟨"analyze_columns", "Analyze Columns", "🔍", "Analyze relationships between columns"⟩,
   ⟨"find_patterns", "Find Patterns", "🎯", "Identify patterns in the data"⟩]

/-- The numeric quadruple of `getElementFallbackActions`. -/
def numericElementActions : List Action :=
  [⟨"calculate", "Calculate", "🧮", "Perform calculations with these numbers"⟩,
   ⟨"convert_units", "Convert Units", "🔄", "Convert to different units or formats"⟩,
   ⟨"analyze_values", "Analyze Values", "📊", "Statistical analysis of the numbers"⟩,
   ⟨"compare", "Compare", "⚖️", "Compare with benchmarks or averages"⟩]

/-- The interactive quadruple of `getElementFallbackActions`. -/
def interactiveElementActions : List Action :=
  [⟨"explain_action", "Explain Action", "❓", "What does this button/link do?"⟩,
   ⟨"find_alternatives", "Alternatives", "🔄", "Find alternative ways to do this"⟩,
   ⟨"automate", "Automate", "🤖", "Create automation for this action"⟩,
   ⟨"analyze_behavior", "Analyze", "🔍", "Analyze the element behavior"⟩]

/-- The form quadruple of `getElementFallbackActions`. -/
def formElementActions : List Action :=
  [⟨"explain_form", "Explain Form", "📝", "Explain what this form does"⟩,
   ⟨"validate_fields", "Validate", "✅", "Check form field requirements"⟩,
   ⟨"suggest_values", "Suggest Values", "💡", "Suggest appropriate values"⟩,
   ⟨"extract_structure", "Extract Structure", "🏗️", "Extract form structure and fields"⟩]

/-- The `default` quadruple of `getElementFallbackActions`. -/
def genericElementActions : List Action :=
  [⟨"explain_element", "Explain Element", "💡", "Explain what this element does"⟩,
   ⟨"extract_info", "Extract Info", "📋", "Extract information from this element"⟩,
   ⟨"analyze_context", "Analyze Context", "🔍", "Analyze element in page context"⟩,
   ⟨"suggest_actions", "Suggest Actions", "🎯", "Suggest what to do with this"⟩]

/-- The element types the `switch` in `getElementFallbackActions`
dispatches on (everything else reaches `default`). -/
def knownElementTypes : List String :=
  ["image", "chart", "canvas", "table", "numeric", "interactive", "form"]

/-- `getElementFallbackActions(elementContext)`: the element-mode
heuristic suggester, a total `switch` over the derived element type. -/
def getElementFallbackActions (ec : ElementContext) : List Action :=
  let t := elementTypeOf ec
  if t = "image" then imageElementActions
  else if t = "chart" || t = "canvas" then chartElementActions
  else if t = "table" then tableElementActions
  else if t = "numeric" then numericElementActions
  else if t = "interactive" then interactiveElementActions
  else if t = "form" then formElementActions
  else genericElementActions

/-! ## RemoteActionSuggester and `analyzeAndGenerateActions`

The remote completion service is a collaborator: one call produces either
a transport failure (the `fetch` rejects), a non-success HTTP status
(`!response.ok`, which background.js turns into a thrown error caught by
the same function), or a textual body.  `JSON.parse` on the body either
fails, yields a non-array value, or yields an array of actions; the code
accepts the reply only when it is an array of length exactly 4. -/

/-- What the text content of a successful HTTP reply parses to. -/
inductive ParsedContent where
  | unparsable
  | nonArray
  | actions (l : List Action)
deriving DecidableEq

/-- One remote round trip, as observed by `analyzeAndGenerateActions`. -/
inductive RemoteReply where
  | transportError
  | httpError (status : Nat)
  | content (p : ParsedContent)
deriving DecidableEq

/-- The acceptance test of background.js:
`Array.isArray(actions) && actions.length === 4`. -/
def replyAccepted : RemoteReply → Bool
  | .content (.actions l) => l.length == 4
  | _ => false

/-- `analyzeAndGenerateActions(selectedText, context)` from background.js,
instrumented with the number of remote calls it performs (0 or 1).
With no credential (`!apiKey`) it returns `getFallbackActions()` without
touching the network; otherwise it performs one remote call and returns
the parsed reply when accepted, and `getSmartFallbackActions` when the
reply fails transport, has a non-success status, does not parse, parses
to a non-array, or parses to an array whose length is not 4 (every such
path falls through to the final fallback return; the thrown HTTP-status
error is caught by the surrounding `try`). -/
def analyzeAndGenerateActionsR (apiKey : String) (reply : RemoteReply)
    (selectedText : String) (ctx : Context) : List Action × Nat :=
  if apiKey = "" then
    (getFallbackActions, 0)
  else
    match reply with
    | .content (.actions l) =>
      if l.length = 4 then (l, 1) else (getSmartFallbackActions selectedText ctx, 1)
    | _ => (getSmartFallbackActions selectedText ctx, 1)

/-- The action list `analyzeAndGenerateActions` resolves with (the value
sent back as `{ actions }` by the `GET_ACTIONS` listener). -/
def analyzeAndGenerateActions (apiKey : String) (reply : RemoteReply)
    (selectedText : String) (ctx : Context) : List Action :=
  (analyzeAndGenerateActionsR apiKey reply selectedText ctx).1

/-- Modelled from the spec (for comparison only, not from the source):
"if no credential configured, return Heuristic suggestions (ranked)" —
the input-specific heuristic quadruple, ranked by usage. -/
def specRankedHeuristic (stats : UsageStats) (selectedText : String) (ctx : Context) :
    List Action :=
  sortActionsByUsage stats (getSmartFallbackActions selectedText ctx)

/-! ## UsageStats mutation and `executeAction` -/

/-- `updateActionStats(actionId)` from background.js: create the entry on
first use, increment `clicks`, stamp `lastUsed` with the current time, and
persist the whole map (persistence is the map value itself here). -/
def updateActionStats (stats : UsageStats) (actionId : String) (now : Nat) : UsageStats :=
  let entry := (lookupStat stats actionId).getD ⟨0, none⟩
  setStat stats actionId ⟨entry.clicks + 1, some now⟩

/-- `generateDynamicPrompt(action, text, context)` from background.js. -/
def generateDynamicPrompt (action : Action) (text : String) (ctx : Context) : String :=
  let contextInfo :=
    "Context: This text was selected from " ++ ctx.domain ++ " (" ++ ctx.title ++ ").\n\n"
  action.description ++ ". Be concise and practical.\n\n" ++ contextInfo ++ "Text:\n" ++ text

/-- Outcome of the execution round trip to the completion service:
the reply text on success, or the error message produced by the
non-success-status / transport / malformed-body paths (all of which
`executeAction` rethrows). -/
inductive ExecOutcome where
  | success (text : String)
  | failure (err : String)
deriving DecidableEq

/-- `executeAction(action, text, context)` from background.js, as a
function of the environment-chosen remote outcome.  The credential check
happens first and aborts the request without touching the statistics;
`updateActionStats` then runs before the remote call, so the increment is
applied whether or not the call afterwards succeeds.  `now` is the time
at which the statistics update runs (during the call).  Returns the
result delivered to the caller together with the statistics map after
the call. -/
def executeAction (apiKey : String) (action : Action) (text : String) (ctx : Context)
    (stats : UsageStats) (now : Nat) (outcome : ExecOutcome) :
    Except String String × UsageStats :=
  if apiKey = "" then
    (.error "API key not configured. Please set it in the extension options.", stats)
  else
    let stats' := updateActionStats stats action.id now
    match outcome with
    | .success body => (.ok body, stats')
    | .failure err => (.error err, stats')

/-! ## Orchestrator operations over UsageStats (background.js listener) -/

/-- One message handled by the background orchestrator, with the
environment data that determines its effect.  `GET_ACTIONS` never touches
the statistics; `EXECUTE_ACTION` runs `executeAction`; `UPDATE_STATS`
runs `updateActionStats` directly.  The options page's full reset is not
an orchestrator operation (it is a user-initiated storage write from the
settings surface). -/
inductive OrchestratorOp where
  | getActions (apiKey : String) (reply : RemoteReply) (text : String) (ctx : Context)
  | execAction (apiKey : String) (action : Action) (text : String) (ctx : Context)
      (now : Nat) (outcome : ExecOutcome)
  | updateStats (actionId : String) (now : Nat)

/-- Effect of one orchestrator operation on the statistics map. -/
def applyOp (stats : UsageStats) : OrchestratorOp → UsageStats
  | .getActions _ _ _ _ => stats
  | .execAction apiKey action text ctx now outcome =>
      (executeAction apiKey action text ctx stats now outcome).2
  | .updateStats actionId now => updateActionStats stats actionId now

/-! ## UI request lifecycle (`showActionPalette`, content script with timeout)

The timeout-bearing content-script iteration arms a 10-second timer per
`GET_ACTIONS` request (`setTimeout`: clear loading flag, hide palette,
show the timeout notification) and passes a callback to
`chrome.runtime.sendMessage` that clears its own timer and then renders
whatever response it received — there is no correlation token anywhere,
so the callback body does not know, and does not check, whether its
request is still the latest one or whether its timer already fired.

The asynchronous machinery is modelled as a trace of events folded over a
step function: `gesture r` is a call of `showActionPalette` for request
`r`, `timerFire r` is that request's timer going off before being
cleared, and `response r payload` is the message callback running with
the background's response (`payload = none` models a missing/failed
response, which hides the palette; note an empty `actions` array is
truthy in JS and is rendered). -/

/-- What the overlay currently shows. `showing r acts` records which
request's actions are on screen. -/
inductive PaletteView where
  | hidden
  | loading
  | showing (reqId : Nat) (actions : List Action)
deriving DecidableEq

/-- Content-script state relevant to the request lifecycle. -/
structure UIState where
  isLoadingActions : Bool
  palette : PaletteView
  armedTimers : List Nat
  timeoutNotices : Nat
deriving DecidableEq

/-- The initial content-script state. -/
def initUIState : UIState :=
  ⟨false, .hidden, [], 0⟩

/-- One asynchronous event in the UI context. -/
inductive UIEvent where
  | gesture (reqId : Nat)
  | timerFire (reqId : Nat)
  | response (reqId : Nat) (payload : Option (List Action))
deriving DecidableEq

/-- One cooperative handler run, following `showActionPalette`:
the gesture sets the loading flag, shows the loading palette and arms the
timer; the timer (if still armed) clears the flag, hides the palette and
counts a timeout notification; the response callback clears its own timer
(a no-op when it already fired), clears the flag, and renders the
response's actions — unconditionally. -/
def uiStep (s : UIState) : UIEvent → UIState
  | .gesture r =>
      { s with isLoadingActions := true, palette := .loading,
               armedTimers := r :: s.armedTimers }
  | .timerFire r =>
      if r ∈ s.armedTimers then
        { s with armedTimers := s.armedTimers.erase r, isLoadingActions := false,
                 palette := .hidden, timeoutNotices := s.timeoutNotices + 1 }
      else s
  | .response r payload =>
      let s' := { s with armedTimers := s.armedTimers.erase r, isLoadingActions := false }
      match payload with
      | some acts => { s' with palette := .showing r acts }
      | none => { s' with palette := .hidden }

/-- Run a trace of UI events from the initial state. -/
def uiRun (events : List UIEvent) : UIState :=
  events.foldl uiStep initUIState

/-! ## Selection gating (`handleTextSelection`, src/contentScript.js)

`handleTextSelection` runs on `mouseup`.  It ignores events on the
extension's own surfaces and alt-clicks; otherwise it trims the current
selection.  Only a nonempty trimmed selection that differs from the last
one schedules the 200 ms settle check, and only if the selection is
unchanged at settle time does `showActionPalette` run — which is the sole
place this path emits a `GET_ACTIONS` request.  An empty trimmed
selection at most hides an existing palette. -/

/-- Observable effects of one `handleTextSelection` run. -/
inductive SelectionEffect where
  | showLoadingPalette
  | sendGetActions (selectedText : String)
  | hidePalette
deriving DecidableEq

/-- Content-script state read and written by `handleTextSelection`. -/
structure SelectionState where
  selectedText : String
  isLoadingActions : Bool
  clickAnalysisMode : Bool
deriving DecidableEq

/-- The body of `showActionPalette` (src/contentScript.js): set the
loading flag, show the loading palette, and send the `GET_ACTIONS`
request carrying the stored selection. -/
def showActionPaletteEffects (st : SelectionState) : SelectionState × List SelectionEffect :=
  ({ st with isLoadingActions := true, clickAnalysisMode := false },
   [.showLoadingPalette, .sendGetActions st.selectedText])

/-- `handleTextSelection(event)`.  `onSidekickTarget` and `altKey` model
the two early returns; `rawSelection` is `window.getSelection()` at event
time; `rectValid` models whether `getRangeAt(0)` succeeds; `settleSelection`
is the selection re-read by the 200 ms `setTimeout` guard. -/
def handleTextSelection (onSidekickTarget altKey : Bool) (rawSelection : String)
    (rectValid : Bool) (settleSelection : String) (st : SelectionState) :
    SelectionState × List SelectionEffect :=
  if onSidekickTarget then (st, [])
  else if altKey then (st, [])
  else
    let text := jsTrim rawSelection
    if text.length > 0 ∧ text ≠ st.selectedText then
      let st' := { st with selectedText := text, clickAnalysisMode := false }
      if rectValid = false then (st', [])
      else if jsTrim settleSelection = text then showActionPaletteEffects st'
      else (st', [])
    else if text.length = 0 ∧ st.isLoadingActions = false then (st, [.hidePalette])
    else (st, [])

/-! ## Supporting lemmas -/

theorem getSmartFallbackActions_length (t : String) (c : Context) :
    (getSmartFallbackActions t c).length = 4 := by
  simp only [getSmartFallbackActions]
  split_ifs <;> rfl

/-- Every character of every whitespace-split run comes from the scanned
list or the accumulator. -/
theorem splitWsAux_mem_sub (l : List Char) :
    ∀ (acc w : List Char), w ∈ splitWsAux l acc → ∀ c ∈ w, c ∈ l ∨ c ∈ acc := by
  induction l with
  | nil =>
    intro acc w hw c hc
    unfold splitWsAux at hw
    by_cases ha : acc.isEmpty
    · simp [ha] at hw
    · simp [ha] at hw
      subst hw
      exact Or.inr (List.mem_reverse.mp hc)
  | cons x xs ih =>
    intro acc w hw c hc
    unfold splitWsAux at hw
    by_cases hx : isWsChar x
    · simp only [hx, if_true, List.mem_append] at hw
      rcases hw with hw | hw
      · by_cases ha : acc.isEmpty
        · simp [ha] at hw
        · simp [ha] at hw
          subst hw
          exact Or.inr (List.mem_reverse.mp hc)
      · rcases ih [] w hw c hc with h | h
        · exact Or.inl (List.mem_cons_of_mem x h)
        · simp at h
    · simp only [hx, if_false] at hw
      rcases ih (x :: acc) w hw c hc with h | h
      · exact Or.inl (List.mem_cons_of_mem x h)
      · rcases List.mem_cons.mp h with rfl | h'
        · exact Or.inl (List.mem_cons_self c xs)
        · exact Or.inr h'

/-- A positive numeric-token count implies the text contains a digit
(so the `/\d+/.test` conjunct of `hasNumbers` is redundant). -/
theorem numericTokenCount_pos_digit (s : String) (h : 0 < numericTokenCount s) :
    s.data.any Char.isDigit = true := by
  unfold numericTokenCount at h
  obtain ⟨w, hw⟩ := List.exists_mem_of_length_pos h
  have hmem : w ∈ wordRuns s := List.mem_of_mem_filter hw
  have htok : isNumericToken w = true := List.of_mem_filter hw
  simp only [isNumericToken, Bool.and_eq_true] at htok
  obtain ⟨hne, hall⟩ := htok
  obtain ⟨c, hc⟩ : ∃ c, c ∈ w := by
    cases w with
    | nil => simp at hne
    | cons a _ => exact ⟨a, List.mem_cons_self a _⟩
  have hcs : c ∈ s.data := by
    rcases splitWsAux_mem_sub s.data [] w hmem c hc with h' | h'
    · exact h'
    · simp at h'
  exact List.any_eq_true.mpr ⟨c, hcs, List.all_eq_true.mp hall c hc⟩

/-- `setStat` read-back: the written key returns the new value, every
other key is untouched. -/
theorem lookupStat_setStat (s : UsageStats) (id id' : String) (v : Stat) :
    lookupStat (setStat s id v) id' =
      if id' = id then some v else lookupStat s id' := by
  induction s with
  | nil =>
    by_cases h : id' = id
    · simp [setStat, lookupStat, h]
    · have h' : ¬ id = id' := fun hk => h hk.symm
      simp [setStat, lookupStat, h, h']
  | cons p ps ih =>
    obtain ⟨k, w⟩ := p
    by_cases hk : k = id
    · subst hk
      by_cases h : id' = k
      · simp [setStat, lookupStat, h]
      · have h' : ¬ k = id' := fun hk => h hk.symm
        simp [setStat, lookupStat, h, h']
    · by_cases h : k = id'
      · have h' : ¬ id' = id := fun he => hk (h.trans he)
        simp [setStat, lookupStat, hk, h, h']
      · simp [setStat, lookupStat, hk, h, ih]

/-- `updateActionStats` read-back: the updated id gains exactly one click
and the fresh timestamp; every other id is untouched. -/
theorem lookupStat_updateActionStats (s : UsageStats) (id : String) (now : Nat)
    (id' : String) :
    lookupStat (updateActionStats s id now) id' =
      if id' = id then some ⟨clicksOf s id + 1, some now⟩ else lookupStat s id' := by
  unfold updateActionStats
  rw [lookupStat_setStat]
  by_cases h : id' = id
  · simp only [h, if_true]
    unfold clicksOf
    cases hl : lookupStat s id <;> simp [hl]
  · simp [h]

theorem clicksOf_updateActionStats (s : UsageStats) (id : String) (now : Nat)
    (id' : String) :
    clicksOf (updateActionStats s id now) id' =
      if id' = id then clicksOf s id + 1 else clicksOf s id' := by
  by_cases h : id' = id <;>
    simp [clicksOf, lookupStat_updateActionStats, h]

/-! ## Claim theorems -/

/-- C1: for every GetActions request, `analyzeAndGenerateActions` never
throws to its caller (it is a total function of the environment-chosen
reply) and always resolves with exactly 4 actions; whenever the remote
reply fails transport, has a non-success status, does not parse, or
parses to something other than a 4-element action array, the reply is
rejected and the heuristic fallback quadruple
`getSmartFallbackActions selectedText ctx` is returned in its place. -/
theorem C1_getActions_always_four_and_falls_back :
    ∀ (apiKey : String) (reply : RemoteReply) (selectedText : String) (ctx : Context),
      (analyzeAndGenerateActions apiKey reply selectedText ctx).length = 4 ∧
      (apiKey ≠ "" → replyAccepted reply = false →
        analyzeAndGenerateActions apiKey reply selectedText ctx =
          getSmartFallbackActions selectedText ctx) := by
  intro apiKey reply selectedText ctx
  unfold analyzeAndGenerateActions analyzeAndGenerateActionsR
  by_cases hk : apiKey = ""
  · simp only [hk, if_true]
    exact ⟨rfl, fun h _ => absurd rfl h⟩
  · simp only [hk, if_false]
    cases reply with
    | transportError =>
      exact ⟨getSmartFallbackActions_length selectedText ctx, fun _ _ => rfl⟩
    | httpError status =>
      exact ⟨getSmartFallbackActions_length selectedText ctx, fun _ _ => rfl⟩
    | content p =>
      cases p with
      | unparsable =>
        exact ⟨getSmartFallbackActions_length selectedText ctx, fun _ _ => rfl⟩
      | nonArray =>
        exact ⟨getSmartFallbackActions_length selectedText ctx, fun _ _ => rfl⟩
      | actions l =>
        by_cases hl : l.length = 4
        · refine ⟨by simp [hl], fun _ hacc => ?_⟩
          simp [replyAccepted, hl] at hacc
        · exact ⟨by simp [hl, getSmartFallbackActions_length],
                 fun _ _ => by simp [hl]⟩

/-- C1 witness: with a credential configured and a remote reply that
parses to only 3 actions, the result is the heuristic fallback quadruple
and has length 4. -/
theorem C1_witness :
    ("sk-test" ≠ "" ∧
      replyAccepted (.content (.actions (getFallbackActions.take 3))) = false) ∧
    (analyzeAndGenerateActions "sk-test" (.content (.actions (getFallbackActions.take 3)))
      "hello world" ⟨"https://example.com", "Example", "example.com"⟩).length = 4 ∧
    analyzeAndGenerateActions "sk-test" (.content (.actions (getFallbackActions.take 3)))
      "hello world" ⟨"https://example.com", "Example", "example.com"⟩ =
      getSmartFallbackActions "hello world" ⟨"https://example.com", "Example", "example.com"⟩ :=
  ⟨⟨by decide, by decide⟩,
   (C1_getActions_always_four_and_falls_back "sk-test"
     (.content (.actions (getFallbackActions.take 3))) "hello world"
     ⟨"https://example.com", "Example", "example.com"⟩).1,
   (C1_getActions_always_four_and_falls_back "sk-test"
     (.content (.actions (getFallbackActions.take 3))) "hello world"
     ⟨"https://example.com", "Example", "example.com"⟩).2 (by decide) (by decide)⟩

/-- C2 counterexample: the claim that a response for a stale request is
never rendered is false on the code.  In the first trace the 10-second
timeout fires (one timeout notification is reported) and the late
response for the same request is then rendered anyway; in the second
trace a second gesture supersedes the first request, the second request's
response arrives first, and the first request's late response then
overwrites it, so the palette ends up showing the superseded request's
actions. -/
theorem C2_counterexample :
    (uiRun [.gesture 1, .timerFire 1,
            .response 1 (some generalTextActions)]).timeoutNotices = 1 ∧
    (uiRun [.gesture 1, .timerFire 1,
            .response 1 (some generalTextActions)]).palette =
      .showing 1 generalTextActions ∧
    (uiRun [.gesture 1, .gesture 2, .response 2 (some codeActions),
            .response 1 (some generalTextActions)]).palette =
      .showing 1 generalTextActions := by
  refine ⟨rfl, by decide, by decide⟩

/-- C2 amended: the content script carries no correlation token, so a
`GET_ACTIONS` response carrying an actions payload is always rendered
when its callback runs, regardless of any earlier timeout firing or
superseding gesture in the trace: after any prefix of events, a final
response event leaves the palette showing exactly that response's
actions (last response wins, not latest request). -/
theorem C2_last_response_wins :
    ∀ (t : List UIEvent) (r : Nat) (acts : List Action),
      (uiRun (t ++ [.response r (some acts)])).palette = .showing r acts ∧
      (uiRun (t ++ [.response r (some acts)])).isLoadingActions = false := by
  intro t r acts
  unfold uiRun
  rw [List.foldl_append]
  exact ⟨rfl, rfl⟩

/-- C3 counterexample: the claim that no UsageStats increment is
attributable to a non-successful execution is false on the code.
`updateActionStats` runs before the remote call, so an execution whose
remote call fails still increments the clicks of the executed action
from 0 to 1 while delivering an error to the caller. -/
theorem C3_counterexample :
    (executeAction "sk-test" ⟨"summarize", "Summarize", "📝", "Create a brief summary"⟩
        "text" ⟨"https://example.com", "Example", "example.com"⟩ [] 5
        (.failure "API request failed: 500 - overloaded")).1 =
      .error "API request failed: 500 - overloaded" ∧
    clicksOf ([] : UsageStats) "summarize" = 0 ∧
    clicksOf (executeAction "sk-test" ⟨"summarize", "Summarize", "📝", "Create a brief summary"⟩
        "text" ⟨"https://example.com", "Example", "example.com"⟩ [] 5
        (.failure "API request failed: 500 - overloaded")).2 "summarize" = 1 :=
  ⟨rfl, rfl, rfl⟩

/-- C3 amended: every `executeAction` call that passes the credential
check increments the executed action's clicks by exactly 1 and stamps
`lastUsed` with the in-call time (hence a value not before the call
started), persisting the update and leaving every other action's entry
untouched, and a successful call returns the reply text — but the
increment is per credentialed call, not per successful execution: it also
happens when the remote call then fails. -/
theorem C3_execute_increments_once_per_credentialed_call :
    ∀ (apiKey : String) (action : Action) (text : String) (ctx : Context)
      (stats : UsageStats) (now : Nat) (outcome : ExecOutcome),
      apiKey ≠ "" →
      clicksOf (executeAction apiKey action text ctx stats now outcome).2 action.id =
        clicksOf stats action.id + 1 ∧
      lookupStat (executeAction apiKey action text ctx stats now outcome).2 action.id =
        some ⟨clicksOf stats action.id + 1, some now⟩ ∧
      (∀ id, id ≠ action.id →
        lookupStat (executeAction apiKey action text ctx stats now outcome).2 id =
          lookupStat stats id) ∧
      (∀ body, outcome = .success body →
        (executeAction apiKey action text ctx stats now outcome).1 = .ok body) := by
  intro apiKey action text ctx stats now outcome hk
  have hsnd : (executeAction apiKey action text ctx stats now outcome).2 =
      updateActionStats stats action.id now := by
    unfold executeAction
    simp only [hk, if_false]
    cases outcome <;> rfl
  refine ⟨?_, ?_, ?_, ?_⟩
  · rw [hsnd, clicksOf_updateActionStats]
    simp
  · rw [hsnd, lookupStat_updateActionStats]
    simp
  · intro id hid
    rw [hsnd, lookupStat_updateActionStats]
    simp [hid]
  · intro body hb
    subst hb
    unfold executeAction
    simp [hk]

/-- C3 witness: a successful summarize execution with a credential, over
a store where summarize has 2 clicks, yields 3 clicks, `lastUsed` stamped
with the call time, other entries untouched, and the reply text as the
result. -/
theorem C3_witness :
    ("sk-test-2" ≠ "") ∧
    clicksOf (executeAction "sk-test-2" ⟨"summarize", "Summarize", "📝", "Create a brief summary"⟩
        "text" ⟨"https://example.com", "Example", "example.com"⟩
        [("summarize", ⟨2, some 1⟩)] 7 (.success "fine")).2 "summarize" =
      clicksOf [("summarize", ⟨2, some 1⟩)] "summarize" + 1 ∧
    lookupStat (executeAction "sk-test-2" ⟨"summarize", "Summarize", "📝", "Create a brief summary"⟩
        "text" ⟨"https://example.com", "Example", "example.com"⟩
        [("summarize", ⟨2, some 1⟩)] 7 (.success "fine")).2 "summarize" =
      some ⟨3, some 7⟩ ∧
    (executeAction "sk-test-2" ⟨"summarize", "Summarize", "📝", "Create a brief summary"⟩
        "text" ⟨"https://example.com", "Example", "example.com"⟩
        [("summarize", ⟨2, some 1⟩)] 7 (.success "fine")).1 = .ok "fine" :=
  ⟨by decide,
   (C3_execute_increments_once_per_credentialed_call "sk-test-2"
      ⟨"summarize", "Summarize", "📝", "Create a brief summary"⟩ "text"
      ⟨"https://example.com", "Example", "example.com"⟩
      [("summarize", ⟨2, some 1⟩)] 7 (.success "fine") (by decide)).1,
   by
     have h := (C3_execute_increments_once_per_credentialed_call "sk-test-2"
       ⟨"summarize", "Summarize", "📝", "Create a brief summary"⟩ "text"
       ⟨"https://example.com", "Example", "example.com"⟩
       [("summarize", ⟨2, some 1⟩)] 7 (.success "fine") (by decide)).2.1
     simpa using h,
   (C3_execute_increments_once_per_credentialed_call "sk-test-2"
      ⟨"summarize", "Summarize", "📝", "Create a brief summary"⟩ "text"
      ⟨"https://example.com", "Example", "example.com"⟩
      [("summarize", ⟨2, some 1⟩)] 7 (.success "fine") (by decide)).2.2.2 "fine" rfl⟩

/-- C4: `executeAction` with no credential configured rejects with the
credential-configuration error and leaves the statistics map completely
unchanged, for every action, input, store, time and remote outcome. -/
theorem C4_execute_without_credential_rejects :
    ∀ (action : Action) (text : String) (ctx : Context) (stats : UsageStats)
      (now : Nat) (outcome : ExecOutcome),
      executeAction "" action text ctx stats now outcome =
        (.error "API key not configured. Please set it in the extension options.", stats) :=
  fun _ _ _ _ _ _ => rfl

/-- C5 counterexample: the claim that a no-credential `getActions` call
returns the heuristic suggestions for the input ranked by usage is false
on the current background code.  For a code-like selection the
no-credential path returns the fixed generic quadruple
`getFallbackActions` (unranked, input-independent), which differs from
the usage-ranked heuristic suggestions for that input (the code
quadruple). -/
theorem C5_counterexample :
    analyzeAndGenerateActionsR "" .transportError "function foo() \x7b return 1; \x7d"
        ⟨"https://example.com", "Example", "example.com"⟩ = (getFallbackActions, 0) ∧
    specRankedHeuristic [] "function foo() \x7b return 1; \x7d"
        ⟨"https://example.com", "Example", "example.com"⟩ = codeActions ∧
    getFallbackActions ≠
      specRankedHeuristic [] "function foo() \x7b return 1; \x7d"
        ⟨"https://example.com", "Example", "example.com"⟩ := by
  refine ⟨rfl, by decide, by decide⟩

/-- C5 amended: a `getActions` call with no credential configured never
invokes the remote suggester (the remote call count is 0) and returns the
fixed generic fallback quadruple `getFallbackActions` — not the
input-specific heuristic suggestions and not ranked by usage (the older
background iteration did rank the input-specific heuristics on this
path). -/
theorem C5_no_credential_skips_remote :
    ∀ (reply : RemoteReply) (selectedText : String) (ctx : Context),
      analyzeAndGenerateActionsR "" reply selectedText ctx = (getFallbackActions, 0) :=
  fun _ _ _ => rfl

/-- C6: `sortActionsByUsage` is a stable sort descending by clicks with
missing usage entries treated as 0: the output is a permutation of the
input, pairwise descending in clicks, the sublist at every fixed click
count keeps the input order (stability), and on usage
a=5, b=2, c=0, d=0 the input [c, d, a, b] yields [a, b, c, d]. -/
theorem C6_rank_stable_descending :
    (∀ (stats : UsageStats) (actions : List Action),
      List.Perm (sortActionsByUsage stats actions) actions ∧
      (sortActionsByUsage stats actions).Pairwise (ClicksDesc stats) ∧
      (∀ c : Nat,
        (sortActionsByUsage stats actions).filter (fun x => clicksOf stats x.id == c) =
          actions.filter (fun x => clicksOf stats x.id == c))) ∧
    sortActionsByUsage
      [("a", ⟨5, none⟩), ("b", ⟨2, none⟩), ("c", ⟨0, none⟩), ("d", ⟨0, none⟩)]
      [⟨"c", "C", "🄲", "c action"⟩, ⟨"d", "D", "🄳", "d action"⟩,
       ⟨"a", "A", "🄰", "a action"⟩, ⟨"b", "B", "🄱", "b action"⟩] =
      [⟨"a", "A", "🄰", "a action"⟩, ⟨"b", "B", "🄱", "b action"⟩,
       ⟨"c", "C", "🄲", "c action"⟩, ⟨"d", "D", "🄳", "d action"⟩] :=
  ⟨fun stats actions =>
    ⟨sortActionsByUsage_perm stats actions,
     sortActionsByUsage_pairwise stats actions,
     fun c => sortActionsByUsage_stable stats actions c⟩,
   by decide⟩

theorem updateActionStats_monotone (s : UsageStats) (aid : String) (now : Nat)
    (id : String) :
    clicksOf s id ≤ clicksOf (updateActionStats s aid now) id ∧
    ((lookupStat s id).isSome = true →
      (lookupStat (updateActionStats s aid now) id).isSome = true) := by
  constructor
  · rw [clicksOf_updateActionStats]
    by_cases h : id = aid
    · subst h
      simp
    · simp [h]
  · intro hs
    rw [lookupStat_updateActionStats]
    by_cases h : id = aid
    · simp [h]
    · simpa [h] using hs

/-- C7: UsageStats is monotone under every orchestrator operation
(`GET_ACTIONS`, `EXECUTE_ACTION`, `UPDATE_STATS`): the key set only grows
and no action's click count ever decreases.  (The user-initiated full
reset lives on the options page, outside the orchestrator.) -/
theorem C7_usage_stats_monotone :
    ∀ (stats : UsageStats) (op : OrchestratorOp) (id : String),
      clicksOf stats id ≤ clicksOf (applyOp stats op) id ∧
      ((lookupStat stats id).isSome = true →
        (lookupStat (applyOp stats op) id).isSome = true) := by
  intro stats op id
  cases op with
  | getActions k r t c => exact ⟨le_refl _, fun h => h⟩
  | updateStats aid now => exact updateActionStats_monotone stats aid now id
  | execAction apiKey action text ctx now outcome =>
    have happ : applyOp stats (.execAction apiKey action text ctx now outcome) =
        (executeAction apiKey action text ctx stats now outcome).2 := rfl
    rw [happ]
    by_cases hk : apiKey = ""
    · have h2 : (executeAction apiKey action text ctx stats now outcome).2 = stats := by
        unfold executeAction
        simp [hk]
      rw [h2]
      exact ⟨le_refl _, fun h => h⟩
    · have h2 : (executeAction apiKey action text ctx stats now outcome).2 =
          updateActionStats stats action.id now := by
        unfold executeAction
        simp only [hk, if_false]
        cases outcome <;> rfl
      rw [h2]
      exact updateActionStats_monotone stats action.id now id

/-- C7 witness: over a store with 2 clicks on summarize, an
`UPDATE_STATS` operation keeps the key present and does not decrease its
clicks. -/
theorem C7_witness :
    (lookupStat [("summarize", ⟨2, some 1⟩)] "summarize").isSome = true ∧
    clicksOf [("summarize", ⟨2, some 1⟩)] "summarize" ≤
      clicksOf (applyOp [("summarize", ⟨2, some 1⟩)]
        (.updateStats "summarize" 9)) "summarize" ∧
    (lookupStat (applyOp [("summarize", ⟨2, some 1⟩)]
        (.updateStats "summarize" 9)) "summarize").isSome = true :=
  ⟨by decide,
   (C7_usage_stats_monotone [("summarize", ⟨2, some 1⟩)]
      (.updateStats "summarize" 9) "summarize").1,
   (C7_usage_stats_monotone [("summarize", ⟨2, some 1⟩)]
      (.updateStats "summarize" 9) "summarize").2 (by decide)⟩

/-- C8: given that neither the code rule nor the email rule matched, a
text selection receives the numeric-data quadruple from the heuristic
suggester exactly when strictly more than 3 of its whitespace-split words
are standalone numeric tokens. -/
theorem C8_numeric_rule :
    ∀ (selectedText : String) (ctx : Context),
      isCode selectedText = false →
      isEmail (jsToLower selectedText) (jsToLower ctx.url) = false →
      (getSmartFallbackActions selectedText ctx = numericDataActions ↔
        numericTokenCount selectedText > 3) := by
  intro t ctx hcode hemail
  simp only [getSmartFallbackActions, hcode, hemail, Bool.false_eq_true, if_false]
  by_cases hn : hasNumbers t = true
  · have h' := hn
    simp only [hasNumbers, Bool.and_eq_true, decide_eq_true_eq] at h'
    rw [if_pos hn]
    exact iff_of_true rfl h'.2
  · rw [if_neg hn]
    have hnot : ¬ (numericTokenCount t > 3) := by
      intro hgt
      apply hn
      simp only [hasNumbers, Bool.and_eq_true, decide_eq_true_eq]
      exact ⟨numericTokenCount_pos_digit t (by omega), hgt⟩
    split_ifs <;> exact iff_of_false (by decide) hnot

/-- C8 witness: the selection "12 34 56 78" matches neither the code nor
the email rule, has 4 standalone numeric tokens, and receives the
numeric-data quadruple. -/
theorem C8_witness :
    (isCode "12 34 56 78" = false ∧
     isEmail (jsToLower "12 34 56 78") (jsToLower "https://example.com") = false) ∧
    (getSmartFallbackActions "12 34 56 78"
        ⟨"https://example.com", "Example", "example.com"⟩ = numericDataActions ↔
      numericTokenCount "12 34 56 78" > 3) :=
  ⟨⟨by decide, by decide⟩,
   C8_numeric_rule "12 34 56 78" ⟨"https://example.com", "Example", "example.com"⟩
     (by decide) (by decide)⟩

/-- C9: a selection whose text trims to empty never reaches the pipeline:
`handleTextSelection` leaves the state unchanged, sends no `GET_ACTIONS`
request (so the background classifier is never invoked for it), and shows
no palette — at most it hides an already-visible one. -/
theorem C9_whitespace_selection_suppressed :
    ∀ (onSidekickTarget altKey : Bool) (rawSelection : String) (rectValid : Bool)
      (settleSelection : String) (st : SelectionState),
      jsTrim rawSelection = "" →
      (handleTextSelection onSidekickTarget altKey rawSelection rectValid
          settleSelection st).1 = st ∧
      ∀ e ∈ (handleTextSelection onSidekickTarget altKey rawSelection rectValid
          settleSelection st).2, e = SelectionEffect.hidePalette := by
  intro os ak raw rv settle st h
  unfold handleTextSelection
  rw [h]
  have hc : ¬ (("" : String).length > 0 ∧ ("" : String) ≠ st.selectedText) := fun hcc =>
    absurd hcc.1 (by decide)
  cases os with
  | true =>
    refine ⟨rfl, ?_⟩
    intro e he
    simp at he
  | false =>
    cases ak with
    | true =>
      refine ⟨rfl, ?_⟩
      intro e he
      simp at he
    | false =>
      simp only [Bool.false_eq_true, if_false]
      rw [if_neg hc]
      by_cases h4 : ("" : String).length = 0 ∧ st.isLoadingActions = false
      · rw [if_pos h4]
        exact ⟨rfl, by intro e he; simpa using he⟩
      · rw [if_neg h4]
        exact ⟨rfl, by intro e he; simp at he⟩

/-- C9 witness: a whitespace-only selection over an idle session leaves
the state unchanged and at most hides the palette — in particular it
sends no `GET_ACTIONS` request and shows no palette. -/
theorem C9_witness :
    jsTrim "  \t\n " = "" ∧
    (handleTextSelection false false "  \t\n " true "" ⟨"", false, false⟩).1 =
      ⟨"", false, false⟩ ∧
    ∀ e ∈ (handleTextSelection false false "  \t\n " true "" ⟨"", false, false⟩).2,
      e = SelectionEffect.hidePalette :=
  ⟨by decide,
   (C9_whitespace_selection_suppressed false false "  \t\n " true "" ⟨"", false, false⟩
     (by decide)).1,
   (C9_whitespace_selection_suppressed false false "  \t\n " true "" ⟨"", false, false⟩
     (by decide)).2⟩

/-- C10: the element-mode fallback suggester is total: every element
context — including a nullish one, one with no `type` field, and one
whose type matches no known case — yields exactly 4 actions, and every
malformed/unknown case yields the generic quadruple. -/
theorem C10_element_fallback_total :
    (∀ ec : ElementContext, (getElementFallbackActions ec).length = 4) ∧
    getElementFallbackActions .nullish = genericElementActions ∧
    getElementFallbackActions (.obj none) = genericElementActions ∧
    (∀ t : String, t ∉ knownElementTypes →
      getElementFallbackActions (.obj (some t)) = genericElementActions) := by
  refine ⟨?_, rfl, rfl, ?_⟩
  · intro ec
    simp only [getElementFallbackActions]
    split_ifs <;> rfl
  · intro t ht
    simp only [knownElementTypes, List.mem_cons, List.not_mem_nil, or_false,
      not_or] at ht
    obtain ⟨h1, h2, h3, h4, h5, h6, h7⟩ := ht
    simp only [getElementFallbackActions, elementTypeOf]
    by_cases h0 : t = ""
    · subst h0
      rfl
    · simp [h0, h1, h2, h3, h4, h5, h6, h7]

/-- C10 witness: a descriptor whose type string matches no known case
yields the generic quadruple. -/
theorem C10_witness :
    "weird" ∉ knownElementTypes ∧
    getElementFallbackActions (.obj (some "weird")) = genericElementActions :=
  ⟨by decide,
   C10_element_fallback_total.2.2.2 "weird" (by decide)⟩

end Sidekick
